import Mathlib

/-!
Shallow embedding of the pytailorshop repository (src/ts_types.py and
src/tailorshop.py) and verification of the frozen claims.

Modelling conventions:
- Python numbers are exact in this model: values produced by the action
  setters are rationals, the simulation state is real-valued.
- Python round (banker rounding: ties to the even integer) is pyRound.
- Python list indexing l[i] (with the negative-index wrap used by Python)
  is pyIndex; all call sites in the source index with turn - 1 where the
  callers keep 0 <= turn, so at most index -1 can occur.
- Raising an exception is modelled by an Option/Except result.
-/

/-- Python round: round half to even (banker rounding), as an integer. -/
noncomputable def pyRound (x : ℝ) : ℤ :=
  if Int.fract x = 1 / 2 then (if Even ⌊x⌋ then ⌊x⌋ else ⌊x⌋ + 1) else round x

/-- Helper from ts_types.py: max(value, 0). Generic so it applies to the
real-valued state fields and to the integer turn counter alike. -/
def non_negative {α : Type} [LinearOrder α] [Zero α] (value : α) : α :=
  max value 0

/-- Helper from ts_types.py: clamp value into the interval. -/
def clamp {α : Type} [LinearOrder α] (value min_val max_val : α) : α :=
  max (min value max_val) min_val

/-- Helper from ts_types.py: clamp, then (in stepped mode) floor-divide by the
stepsize and multiply back, exactly as (result // stepsize) * stepsize. -/
def step_and_clamp (value min_val max_val stepsize : ℚ) (use_steps : Bool) : ℚ :=
  let result := clamp value min_val max_val
  if use_steps then (⌊result / stepsize⌋ : ℚ) * stepsize else result

/-- State container Tailorshop_State from ts_types.py. The two derived,
presentation-only attributes (damage, percent_worker_satisfaction) are
recomputed from these fields on every update in the source and are modelled
as the functions get_shown_damage and get_shown_worker_satisfaction. -/
structure Tailorshop_State where
  bank_account : ℝ
  shirt_sales : ℝ
  material_price : ℝ
  shirt_stock : ℝ
  worker_satisfaction : ℝ
  production_idle : ℝ
  company_value : ℝ
  customer_interest : ℝ
  material_stock : ℝ
  machine_capacity : ℝ
  turn : ℤ

/-- Constructor Tailorshop_State.__init__: applies the non-negativity and
interval clamps to the given raw field values. -/
noncomputable def mk_state (bank_account shirt_sales material_price shirt_stock
    worker_satisfaction production_idle company_value customer_interest
    material_stock machine_capacity : ℝ) (turn : ℤ) : Tailorshop_State :=
  { bank_account := bank_account
    shirt_sales := non_negative shirt_sales
    material_price := non_negative material_price
    shirt_stock := non_negative shirt_stock
    worker_satisfaction := non_negative worker_satisfaction
    production_idle := clamp production_idle 0 100
    company_value := company_value
    customer_interest := non_negative customer_interest
    material_stock := non_negative material_stock
    machine_capacity := clamp machine_capacity 0 50
    turn := non_negative turn }

/-- Tailorshop_State.from_ts_state: re-runs the constructor on the fields of
an existing state. -/
noncomputable def from_ts_state (s : Tailorshop_State) : Tailorshop_State :=
  mk_state s.bank_account s.shirt_sales s.material_price s.shirt_stock
    s.worker_satisfaction s.production_idle s.company_value
    s.customer_interest s.material_stock s.machine_capacity s.turn

/-- Tailorshop_State.round_and_update: rounds every field except
worker_satisfaction, production_idle and turn (the derived display fields are
recomputed on demand in this model). -/
noncomputable def round_and_update (s : Tailorshop_State) : Tailorshop_State :=
  { s with
    bank_account := (pyRound s.bank_account : ℝ)
    shirt_sales := (pyRound s.shirt_sales : ℝ)
    material_price := (pyRound s.material_price : ℝ)
    shirt_stock := (pyRound s.shirt_stock : ℝ)
    company_value := (pyRound s.company_value : ℝ)
    customer_interest := (pyRound s.customer_interest : ℝ)
    material_stock := (pyRound s.material_stock : ℝ)
    machine_capacity := (pyRound s.machine_capacity : ℝ) }

/-- Tailorshop_State.get_shown_damage. -/
noncomputable def get_shown_damage (s : Tailorshop_State) : ℝ :=
  2 * (50 - s.machine_capacity)

/-- Tailorshop_State.get_shown_worker_satisfaction. -/
noncomputable def get_shown_worker_satisfaction (s : Tailorshop_State) : ℤ :=
  pyRound (100 * s.worker_satisfaction / 1.7)

/-- Action container Controllable_Variables from ts_types.py: the stored
decision values, the per-field offsets captured at construction, and the
stepping-mode flag. -/
structure Controllable_Variables where
  workers50 : ℚ
  workers100 : ℚ
  workers_salary : ℚ
  worker_benefits : ℚ
  shirt_price : ℚ
  outlets : ℚ
  location : ℚ
  material_order : ℚ
  machines50 : ℚ
  machines100 : ℚ
  machines_maintenance : ℚ
  advertising : ℚ
  worker_salary_offset : ℚ
  worker_benefits_offset : ℚ
  shirt_price_offset : ℚ
  material_order_offset : ℚ
  machines_maintenance_offset : ℚ
  advertising_offset : ℚ
  use_steps : Bool

/-- Setter set_workers50. -/
def set_workers50 (a : Controllable_Variables) (value : ℚ) : Controllable_Variables :=
  { a with workers50 := step_and_clamp value 0 20 1 a.use_steps }

/-- Setter set_workers100. -/
def set_workers100 (a : Controllable_Variables) (value : ℚ) : Controllable_Variables :=
  { a with workers100 := step_and_clamp value 0 20 1 a.use_steps }

/-- Setter set_workers_salary: steps and clamps, then re-adds the offset
captured at construction. -/
def set_workers_salary (a : Controllable_Variables) (value : ℚ) : Controllable_Variables :=
  { a with workers_salary :=
      step_and_clamp value 0 5000 100 a.use_steps + a.worker_salary_offset }

/-- Setter set_worker_benefits. -/
def set_worker_benefits (a : Controllable_Variables) (value : ℚ) : Controllable_Variables :=
  { a with worker_benefits :=
      step_and_clamp value 0 500 10 a.use_steps + a.worker_benefits_offset }

/-- Setter set_shirt_price. -/
def set_shirt_price (a : Controllable_Variables) (value : ℚ) : Controllable_Variables :=
  { a with shirt_price :=
      step_and_clamp value 10 100 2 a.use_steps + a.shirt_price_offset }

/-- Setter set_outlets. -/
def set_outlets (a : Controllable_Variables) (value : ℚ) : Controllable_Variables :=
  { a with outlets := step_and_clamp value 0 10 1 a.use_steps }

/-- Indexed branch shared by set_location: stores the stepped and clamped
location index. -/
def set_location_index (a : Controllable_Variables) (idx : ℚ) : Controllable_Variables :=
  { a with location := step_and_clamp idx 0 2 1 a.use_steps }

/-- Python str.lower, character-wise (all location names are ASCII). -/
def py_lower (s : String) : String := String.mk (s.data.map Char.toLower)

/-- Python list.index on strings: first position of x, none when absent
(list.index raises ValueError in that case). -/
def py_string_index (l : List String) (x : String) : Option Nat :=
  l.findIdx? (fun y => y == x)

/-- Setter set_location: an integer is stepped and clamped directly; a string
is lowercased and looked up in the location-name list, and an absent name
raises ValueError (modelled as none). -/
def set_location (a : Controllable_Variables) (location : ℤ ⊕ String) :
    Option Controllable_Variables :=
  match location with
  | .inl v => some (set_location_index a (v : ℚ))
  | .inr s =>
    match py_string_index ([r"suburb", r"city", r"inner city"]) (py_lower s) with
    | some idx => some (set_location_index a (idx : ℚ))
    | none => none

/-- Setter set_material_order. -/
def set_material_order (a : Controllable_Variables) (value : ℚ) : Controllable_Variables :=
  { a with material_order :=
      step_and_clamp value 0 5000 50 a.use_steps + a.material_order_offset }

/-- Setter set_machines50. -/
def set_machines50 (a : Controllable_Variables) (value : ℚ) : Controllable_Variables :=
  { a with machines50 := step_and_clamp value 0 20 1 a.use_steps }

/-- Setter set_machines100. -/
def set_machines100 (a : Controllable_Variables) (value : ℚ) : Controllable_Variables :=
  { a with machines100 := step_and_clamp value 0 20 1 a.use_steps }

/-- Setter set_machines_maintenance. -/
def set_machines_maintenance (a : Controllable_Variables) (value : ℚ) : Controllable_Variables :=
  { a with machines_maintenance :=
      step_and_clamp value 0 5000 100 a.use_steps + a.machines_maintenance_offset }

/-- Setter set_advertising. -/
def set_advertising (a : Controllable_Variables) (value : ℚ) : Controllable_Variables :=
  { a with advertising :=
      step_and_clamp value 0 10000 100 a.use_steps + a.advertising_offset }

/-- Constructor Controllable_Variables.__init__: runs the setters in source
order; for the six offset fields it first captures
offset = raw argument - step_and_clamp(raw argument) and then calls the
setter (so the stored value is stepped value + offset = raw argument). -/
def mk_cv (workers50 workers100 workers_salary worker_benefits shirt_price
    outlets location material_order machines50 machines100
    machines_maintenance advertising : ℚ) (use_steps : Bool) :
    Controllable_Variables :=
  let a : Controllable_Variables :=
    { workers50 := 0, workers100 := 0, workers_salary := 0,
      worker_benefits := 0, shirt_price := 0, outlets := 0, location := 0,
      material_order := 0, machines50 := 0, machines100 := 0,
      machines_maintenance := 0, advertising := 0,
      worker_salary_offset := 0, worker_benefits_offset := 0,
      shirt_price_offset := 0, material_order_offset := 0,
      machines_maintenance_offset := 0, advertising_offset := 0,
      use_steps := use_steps }
  let a := set_workers50 a workers50
  let a := set_workers100 a workers100
  let a := set_outlets a outlets
  let a := set_location_index a location
  let a := set_machines50 a machines50
  let a := set_machines100 a machines100
  let a := { a with worker_salary_offset :=
    workers_salary - step_and_clamp workers_salary 0 5000 100 use_steps }
  let a := set_workers_salary a workers_salary
  let a := { a with worker_benefits_offset :=
    worker_benefits - step_and_clamp worker_benefits 0 500 10 use_steps }
  let a := set_worker_benefits a worker_benefits
  let a := { a with shirt_price_offset :=
    shirt_price - step_and_clamp shirt_price 0 100 2 use_steps }
  let a := set_shirt_price a shirt_price
  let a := { a with material_order_offset :=
    material_order - step_and_clamp material_order 0 5000 50 use_steps }
  let a := set_material_order a material_order
  let a := { a with machines_maintenance_offset :=
    machines_maintenance - step_and_clamp machines_maintenance 0 5000 100 use_steps }
  let a := set_machines_maintenance a machines_maintenance
  let a := { a with advertising_offset :=
    advertising - step_and_clamp advertising 0 10000 100 use_steps }
  let a := set_advertising a advertising
  a

/-- Controllable_Variables.__copy__: reconstructs through the constructor
from the currently stored field values. -/
def copy_cv (a : Controllable_Variables) : Controllable_Variables :=
  mk_cv a.workers50 a.workers100 a.workers_salary a.worker_benefits
    a.shirt_price a.outlets a.location a.material_order a.machines50
    a.machines100 a.machines_maintenance a.advertising a.use_steps

/-- Default-constructed Controllable_Variables, with the documented default
arguments of the constructor and stepping enabled. -/
def default_cv : Controllable_Variables :=
  mk_cv 8 0 1080 50 52 1 1 0 10 0 1200 2800 true

/-- Default-constructed Tailorshop_State, with the documented default
arguments of the constructor. -/
noncomputable def default_state : Tailorshop_State :=
  mk_state 165775 407 4 81 0.98 0 250691 767 16 47 1

/-- Engine constant positive_interest. -/
noncomputable def positive_interest : ℝ := 0.0025

/-- Engine constant negative_interest. -/
noncomputable def negative_interest : ℝ := 0.0066

/-- Engine constant max_machine_capacity. -/
noncomputable def max_machine_capacity : ℝ := 50

/-- Engine constant max_advertising_effect. -/
noncomputable def max_advertising_effect : ℝ := 900

/-- Engine constant outlet_rent. -/
noncomputable def outlet_rent : ℝ := 500

/-- Engine constant price_machine50. -/
noncomputable def price_machine50 : ℝ := 10000

/-- Engine constant price_machine100. -/
noncomputable def price_machine100 : ℝ := 20000

/-- Engine constant price_outlet. -/
noncomputable def price_outlet : ℝ := 10000

/-- Engine constant locations_rents = [500, 1000, 2000], looked up at the
location index. The setters confine location to 0, 1 or 2, so only those
three indices are reachable; this total function agrees with the list
lookup there. -/
noncomputable def locations_rents_at (l : ℚ) : ℝ :=
  if l = 0 then 500 else if l = 1 then 1000 else 2000

/-- Fixed noise table rnd_machines_50 (randomize=False). -/
noncomputable def rnd_machines_50 : List ℝ :=
  [-1.6794734, 0.3962952, -1.2906776, -1.69717836,
   0.6770368, 0.3517432, -1.5712524, 1.154388,
   -0.5179668, 1.634584, -1.3330284, -0.9713408,
   0.1261412, 0.8854424]

/-- Fixed noise table rnd_machines_100 (randomize=False). -/
noncomputable def rnd_machines_100 : List ℝ :=
  [-0.8060082, 1.3505922, -1.7557848, -2.44459788,
   -1.0919448, -2.66181528, 0.2626608, -2.0520366,
   1.4789304, -1.7724894, -1.1784876, 1.6133514,
   0.6488046, 1.135758]

/-- Fixed noise table rnd_customer_interest (randomize=False). -/
noncomputable def rnd_customer_interest : List ℝ :=
  [-23.04985, 19.2422, 34.44874, 19.7927,
   -24.671, 30.50709, -4.26652, 38.93418,
   -12.88273, -47.064686, -13.75205, -49.315691,
   25.20559, 30.6675]

/-- Fixed noise table rnd_material_price (randomize=False). -/
noncomputable def rnd_material_price : List ℝ :=
  [8.2671817, 4.8714296, 4.8530515, 5.9098319,
   5.18731075, 7.09909075, 6.772157, 7.6171843,
   8.02385095, 2.6811532, 5.0227145, 6.29710125,
   7.7631327, 2.51019404]

/-- Python list indexing l[i]: non-negative indices from the front, negative
indices wrap from the back (out-of-range indices cannot occur at the call
sites, which all use turn - 1 with 0 <= turn < list length). -/
noncomputable def pyIndex (l : List ℝ) (i : ℤ) : ℝ :=
  if 0 ≤ i then l.getD i.toNat 0 else l.getD (l.length - (-i).toNat) 0

/-- Tailorshop._production_capacity_50. -/
noncomputable def _production_capacity_50 (actions : Controllable_Variables)
    (ts_state : Tailorshop_State) : ℝ :=
  let turn := ts_state.turn
  let capacity_m50 := ts_state.machine_capacity + pyIndex rnd_machines_50 (turn - 1)
  let workers_m50 : ℚ := min actions.machines50 actions.workers50
  let satisfaction_effect := Real.sqrt |ts_state.worker_satisfaction|
  (workers_m50 : ℝ) * capacity_m50 * satisfaction_effect

/-- Tailorshop._production_capacity_100. -/
noncomputable def _production_capacity_100 (actions : Controllable_Variables)
    (ts_state : Tailorshop_State) : ℝ :=
  let turn := ts_state.turn
  let capacity_m100 := (2 * ts_state.machine_capacity) + pyIndex rnd_machines_100 (turn - 1)
  let workers_m100 : ℚ := min actions.machines100 actions.workers100
  let satisfaction_effect := Real.sqrt |ts_state.worker_satisfaction|
  (workers_m100 : ℝ) * capacity_m100 * satisfaction_effect

/-- Tailorshop._shirts_demand. -/
noncomputable def _shirts_demand (actions : Controllable_Variables)
    (ts_state : Tailorshop_State) : ℝ :=
  let base_demand := (ts_state.customer_interest / 2) + 280
  let demand_elasticity :=
    1.25 * ((2.7181 : ℝ) ^ (((-1 * ((actions.shirt_price : ℝ) ^ (2 : ℕ))) / 4250) : ℝ))
  base_demand * demand_elasticity

/-- Tailorshop._trade. -/
noncomputable def _trade (number buying_price selling_price : ℝ) : ℝ :=
  if number > 0 then number * buying_price else number * selling_price

/-- Tailorshop._investments_machines_outlets. -/
noncomputable def _investments_machines_outlets (actions last_actions : Controllable_Variables)
    (ts_state : Tailorshop_State) : ℝ :=
  let machineCondition := ts_state.machine_capacity / max_machine_capacity
  let trade_outlets := _trade ((actions.outlets - last_actions.outlets : ℚ) : ℝ)
    price_outlet (0.8 * price_outlet - (100 * (ts_state.turn : ℝ)))
  let trade_m50 := _trade ((actions.machines50 - last_actions.machines50 : ℚ) : ℝ)
    price_machine50 (0.8 * price_machine50 * machineCondition)
  let trade_m100 := _trade ((actions.machines100 - last_actions.machines100 : ℚ) : ℝ)
    price_machine100 (0.8 * price_machine100 * machineCondition)
  trade_outlets + trade_m50 + trade_m100

/-- Tailorshop._regular_expenses. -/
noncomputable def _regular_expenses (actions : Controllable_Variables)
    (ts_state : Tailorshop_State) : ℝ :=
  let material := (actions.material_order : ℝ) * ts_state.material_price
  let num_workers : ℚ := actions.workers50 + actions.workers100
  let worker_salary := (actions.workers_salary : ℝ) * (num_workers : ℝ)
  let worker_benefits := (actions.worker_benefits : ℝ) * (num_workers : ℝ)
  let outlets := (actions.outlets : ℝ) * outlet_rent
  let location := locations_rents_at actions.location
  let storage := ts_state.shirt_stock + (0.5 * ts_state.material_stock)
  material + worker_salary + worker_benefits + (actions.advertising : ℝ)
    + outlets + location + (actions.machines_maintenance : ℝ) + storage

/-- Tailorshop.customer_interest (the per-turn recomputation, not the state
field). -/
noncomputable def customer_interest_calc (actions : Controllable_Variables)
    (ts_state : Tailorshop_State) : ℝ :=
  let advertising_effect := min ((actions.advertising : ℝ) / 5) max_advertising_effect
  let outlet_effect := 100 * (actions.outlets : ℝ)
  let location_factor := 1 + ((actions.location : ℝ) / 10)
  let random_fluctuation := pyIndex rnd_customer_interest (ts_state.turn - 1)
  ((advertising_effect + outlet_effect) * location_factor) + random_fluctuation

/-- Tailorshop._company_value. -/
noncomputable def _company_value (actions : Controllable_Variables)
    (ts_state : Tailorshop_State) : ℝ :=
  let turn := ts_state.turn
  let bank := ts_state.bank_account
  let machines_50 := (actions.machines50 : ℝ) *
    (ts_state.machine_capacity / max_machine_capacity * price_machine50)
  let machines_100 := (actions.machines100 : ℝ) *
    (ts_state.machine_capacity / max_machine_capacity * price_machine100)
  let outlets := (actions.outlets : ℝ) * price_outlet - ((turn : ℝ) * 100)
  let material := ts_state.material_stock * 2
  let shirts := ts_state.shirt_stock * 20
  bank + machines_50 + machines_100 + outlets + material + shirts

/-- Tailorshop._is_finished: the turn has reached the length of one of the
four noise tables (all of length 14 in the fixed initialization). -/
def _is_finished (ts_state : Tailorshop_State) : Prop :=
  ((rnd_material_price.length : ℤ) ≤ ts_state.turn)
  ∨ ((rnd_customer_interest.length : ℤ) ≤ ts_state.turn)
  ∨ ((rnd_machines_100.length : ℤ) ≤ ts_state.turn)
  ∨ ((rnd_machines_50.length : ℤ) ≤ ts_state.turn)

noncomputable instance (s : Tailorshop_State) : Decidable (_is_finished s) := by
  unfold _is_finished; infer_instance

/-- Body of Tailorshop.calculate_step after the finished guard: the scratch
state starts as from_ts_state of the previous state and every field is then
assigned exactly as in the source (plain attribute assignment, so no clamping
happens on the assigned values); the final round_and_update pass of the
source is applied separately in calculate_step. -/
noncomputable def calculate_step_raw (actions last_actions : Controllable_Variables)
    (ts_state : Tailorshop_State) : Tailorshop_State :=
  let new_state := from_ts_state ts_state
  let material_before_production := ts_state.material_stock + (actions.material_order : ℝ)
  let num_of_machines : ℚ := actions.machines50 + actions.machines100
  let machine_capacity := (0.9 * ts_state.machine_capacity)
    + (((actions.machines_maintenance : ℝ) / ((num_of_machines : ℝ) + 0.00000001)) * 0.017)
  let new_state := { new_state with machine_capacity := machine_capacity }
  let satisfaction := 0.5 + (((actions.workers_salary : ℝ) - 850) / 550)
    + ((actions.worker_benefits : ℝ) / 800)
  let new_state := { new_state with worker_satisfaction := satisfaction }
  let production_capacity := _production_capacity_50 actions new_state
    + _production_capacity_100 actions new_state
  let actual_production := min material_before_production production_capacity
  let production_idle := if production_capacity ≠ 0
    then (production_capacity - actual_production) / production_capacity else 0
  let new_state := { new_state with
    production_idle := production_idle
    material_stock := material_before_production - actual_production }
  let shirts_before_sales := ts_state.shirt_stock + actual_production
  let current_demand := _shirts_demand actions ts_state
  let shirt_sales := min shirts_before_sales current_demand
  let new_state := { new_state with shirt_sales := shirt_sales }
  let sales_revenue := shirt_sales * (actions.shirt_price : ℝ)
  let new_state := { new_state with shirt_stock := shirts_before_sales - shirt_sales }
  let investments := _investments_machines_outlets actions last_actions ts_state
  let expenses := _regular_expenses actions ts_state
  let interest := if ts_state.bank_account > 0
    then ts_state.bank_account * positive_interest
    else ts_state.bank_account * negative_interest
  let bank_account := ts_state.bank_account + interest + sales_revenue
    - investments - expenses
  let new_state := { new_state with bank_account := bank_account }
  let new_state := { new_state with
    customer_interest := customer_interest_calc actions ts_state }
  let material_price := (pyRound (pyIndex rnd_material_price (ts_state.turn - 1)) : ℝ)
  let new_state := { new_state with material_price := material_price }
  let new_state := { new_state with turn := ts_state.turn + 1 }
  let new_state := { new_state with company_value := _company_value actions new_state }
  new_state

/-- Tailorshop.calculate_step: on an already-finished state it prints a
warning and returns None (modelled as none) instead of raising; otherwise it
computes the successor fields and applies the final round_and_update pass. -/
noncomputable def calculate_step (actions last_actions : Controllable_Variables)
    (ts_state : Tailorshop_State) : Option Tailorshop_State :=
  if _is_finished ts_state then none
  else some (round_and_update (calculate_step_raw actions last_actions ts_state))

/-- Engine state of the Tailorshop class in the fixed (randomize=False)
initialization: the current state and the last applied actions (the noise
tables are the fixed module-level constants above). -/
structure Tailorshop where
  current_state : Tailorshop_State
  last_actions : Controllable_Variables

/-- Tailorshop.is_finished. -/
def is_finished (ts : Tailorshop) : Prop := _is_finished ts.current_state

noncomputable instance (ts : Tailorshop) : Decidable (is_finished ts) := by
  unfold is_finished; infer_instance

/-- Tailorshop.do_next_step: raises (error) when the simulation is already
finished; otherwise computes the transition from the stored current state and
a copy of the stored last actions, then commits the new state and a copy of
the given actions. The inner none case is unreachable because the guard of
calculate_step is the same finished test on the same state. -/
noncomputable def do_next_step (ts : Tailorshop) (actions : Controllable_Variables) :
    Except Unit Tailorshop :=
  if is_finished ts then .error ()
  else
    match calculate_step actions (copy_cv ts.last_actions) ts.current_state with
    | some next_state =>
        .ok { current_state := next_state, last_actions := copy_cv actions }
    | none => .error ()

/-- Imperative view of do_next_step: the engine contents after the call,
paired with whether the call raised. In the source the raise statement
precedes every assignment to self, so the error case leaves the engine
exactly as it was. -/
noncomputable def do_next_step_st (ts : Tailorshop) (actions : Controllable_Variables) :
    Tailorshop × Bool :=
  match do_next_step ts actions with
  | .ok ts2 => (ts2, false)
  | .error _ => (ts, true)

/-- Repeated do_next_step over a list of per-turn actions; none as soon as a
step raises. -/
noncomputable def run_steps : Tailorshop → List Controllable_Variables → Option Tailorshop
  | ts, [] => some ts
  | ts, a :: rest =>
    match do_next_step ts a with
    | .ok ts2 => run_steps ts2 rest
    | .error _ => none

/-- Engine constructed with all default arguments. -/
noncomputable def default_engine : Tailorshop :=
  { current_state := default_state, last_actions := default_cv }

/-- pyRound agrees with the nearest integer when the value is strictly
between two tie points. -/
theorem pyRound_eq (n : ℤ) (x : ℝ) (h1 : (n : ℝ) - 1 / 2 < x)
    (h2 : x < (n : ℝ) + 1 / 2) : pyRound x = n := by
  have hfr : Int.fract x ≠ 1 / 2 := by
    intro h
    have hx : x = (⌊x⌋ : ℝ) + 1 / 2 := by
      have := Int.fract_add_floor x
      rw [h] at this
      linarith [this]
    rw [hx] at h1 h2
    have hl : (n : ℝ) - 1 < (⌊x⌋ : ℝ) := by linarith
    have hr : (⌊x⌋ : ℝ) < (n : ℝ) := by linarith
    have hl2 : n - 1 < ⌊x⌋ := by exact_mod_cast hl
    have hr2 : ⌊x⌋ < n := by exact_mod_cast hr
    omega
  rw [pyRound, if_neg hfr, round_eq]
  apply Int.floor_eq_iff.2
  constructor
  · linarith
  · linarith

/-- pyRound of a non-negative value is non-negative. -/
theorem pyRound_nonneg (x : ℝ) (hx : 0 ≤ x) : 0 ≤ pyRound x := by
  have hfl : (0 : ℤ) ≤ ⌊x⌋ := Int.floor_nonneg.2 hx
  rw [pyRound]
  split
  · split
    · exact hfl
    · omega
  · rw [round_eq]
    have : (0 : ℝ) ≤ x + 1 / 2 := by linarith
    exact Int.floor_nonneg.2 this

/-- pyRound of an integer is the integer. -/
theorem pyRound_intCast (n : ℤ) : pyRound ((n : ℤ) : ℝ) = n := by
  apply pyRound_eq <;> linarith

/-- step_and_clamp stays inside the interval whenever the lower bound is an
integer multiple of the stepsize (true of every field: the bounds 0 and 10
are multiples of their stepsizes). -/
theorem step_and_clamp_mem (value min_val max_val stepsize : ℚ) (use_steps : Bool)
    (hs : 0 < stepsize) (hdvd : ∃ k : ℤ, min_val = k * stepsize)
    (hle : min_val ≤ max_val) :
    min_val ≤ step_and_clamp value min_val max_val stepsize use_steps
      ∧ step_and_clamp value min_val max_val stepsize use_steps ≤ max_val := by
  obtain ⟨k, hk⟩ := hdvd
  have hcl1 : min_val ≤ clamp value min_val max_val := le_max_right _ _
  have hcl2 : clamp value min_val max_val ≤ max_val :=
    max_le (min_le_right _ _) hle
  rw [step_and_clamp]
  cases use_steps with
  | false => exact ⟨hcl1, hcl2⟩
  | true =>
    simp only [if_true]
    set r := clamp value min_val max_val with hr
    have hkfl : k ≤ ⌊r / stepsize⌋ := by
      apply Int.le_floor.2
      rw [le_div_iff₀ hs]
      rw [hk] at hcl1
      exact hcl1
    have hfl_le : (⌊r / stepsize⌋ : ℚ) * stepsize ≤ r := by
      have h1 : (⌊r / stepsize⌋ : ℚ) ≤ r / stepsize := Int.floor_le _
      have h2 := mul_le_mul_of_nonneg_right h1 (le_of_lt hs)
      rwa [div_mul_cancel₀ r (ne_of_gt hs)] at h2
    constructor
    · rw [hk]
      have : (k : ℚ) ≤ (⌊r / stepsize⌋ : ℚ) := by exact_mod_cast hkfl
      exact mul_le_mul_of_nonneg_right this (le_of_lt hs)
    · exact le_trans hfl_le hcl2

/-- In stepped mode, step_and_clamp is an integer multiple of the stepsize. -/
theorem step_and_clamp_mul (value min_val max_val stepsize : ℚ) :
    ∃ k : ℤ, step_and_clamp value min_val max_val stepsize true = k * stepsize := by
  exact ⟨⌊clamp value min_val max_val / stepsize⌋, rfl⟩

/-- The finished test is exactly: turn has reached 14, the shared length of
the four fixed noise tables. -/
theorem _is_finished_iff (s : Tailorshop_State) : _is_finished s ↔ 14 ≤ s.turn := by
  have h1 : rnd_material_price.length = 14 := rfl
  have h2 : rnd_customer_interest.length = 14 := rfl
  have h3 : rnd_machines_100.length = 14 := rfl
  have h4 : rnd_machines_50.length = 14 := rfl
  unfold _is_finished
  rw [h1, h2, h3, h4]
  norm_num

/-- pyIndex of a list of non-negative entries is non-negative. -/
theorem pyIndex_nonneg (l : List ℝ) (i : ℤ) (h : ∀ x ∈ l, 0 ≤ x) :
    0 ≤ pyIndex l i := by
  have hD : ∀ n : ℕ, 0 ≤ l.getD n 0 := by
    intro n
    rw [List.getD_eq_getElem?_getD]
    cases hx : l[n]? with
    | none => simp
    | some x =>
      have hmem : x ∈ l := List.getElem?_mem hx
      simpa using h x hmem
  unfold pyIndex
  split
  · exact hD _
  · exact hD _

/-- Every entry of the fixed material price table is non-negative. -/
theorem rnd_material_price_nonneg : ∀ x ∈ rnd_material_price, (0 : ℝ) ≤ x := by
  intro x hx
  simp only [rnd_material_price, List.mem_cons, List.not_mem_nil, or_false] at hx
  rcases hx with h | h | h | h | h | h | h | h | h | h | h | h | h | h <;> rw [h] <;> norm_num

/-- Claim C3 counterexample: on a default-constructed ActionSet (salary
offset 80), set_workers_salary(5000) stores 5080, which is outside the
documented range [0, 5000]. -/
theorem C3_counterexample :
    (set_workers_salary default_cv 5000).workers_salary = 5080
      ∧ ¬ ((set_workers_salary default_cv 5000).workers_salary ≤ 5000) := by
  have h : (set_workers_salary default_cv 5000).workers_salary = 5080 := by
    norm_num [default_cv, mk_cv, set_workers50, set_workers100, set_outlets,
      set_location_index, set_machines50, set_machines100, set_workers_salary,
      set_worker_benefits, set_shirt_price, set_material_order,
      set_machines_maintenance, set_advertising, step_and_clamp, clamp]
  refine ⟨h, ?_⟩
  rw [h]
  norm_num

/-- Claim C3 (amended): the offset-free setters (workers, outlets, location
index, machines) always store inside [min, max]; the six offset-carrying
setters store inside [min + offset, max + offset] for the offset captured at
construction (so they can leave [min, max] by up to the offset), and with
stepping enabled the stored value is congruent to the offset modulo the
stepsize. -/
theorem C3_setter_ranges (a : Controllable_Variables) (v : ℚ) :
    (0 ≤ (set_workers50 a v).workers50 ∧ (set_workers50 a v).workers50 ≤ 20)
  ∧ (0 ≤ (set_workers100 a v).workers100 ∧ (set_workers100 a v).workers100 ≤ 20)
  ∧ (0 ≤ (set_outlets a v).outlets ∧ (set_outlets a v).outlets ≤ 10)
  ∧ (0 ≤ (set_location_index a v).location ∧ (set_location_index a v).location ≤ 2)
  ∧ (0 ≤ (set_machines50 a v).machines50 ∧ (set_machines50 a v).machines50 ≤ 20)
  ∧ (0 ≤ (set_machines100 a v).machines100 ∧ (set_machines100 a v).machines100 ≤ 20)
  ∧ (0 + a.worker_salary_offset ≤ (set_workers_salary a v).workers_salary
      ∧ (set_workers_salary a v).workers_salary ≤ 5000 + a.worker_salary_offset)
  ∧ (0 + a.worker_benefits_offset ≤ (set_worker_benefits a v).worker_benefits
      ∧ (set_worker_benefits a v).worker_benefits ≤ 500 + a.worker_benefits_offset)
  ∧ (10 + a.shirt_price_offset ≤ (set_shirt_price a v).shirt_price
      ∧ (set_shirt_price a v).shirt_price ≤ 100 + a.shirt_price_offset)
  ∧ (0 + a.material_order_offset ≤ (set_material_order a v).material_order
      ∧ (set_material_order a v).material_order ≤ 5000 + a.material_order_offset)
  ∧ (0 + a.machines_maintenance_offset ≤ (set_machines_maintenance a v).machines_maintenance
      ∧ (set_machines_maintenance a v).machines_maintenance ≤ 5000 + a.machines_maintenance_offset)
  ∧ (0 + a.advertising_offset ≤ (set_advertising a v).advertising
      ∧ (set_advertising a v).advertising ≤ 10000 + a.advertising_offset)
  ∧ (a.use_steps = true →
      (∃ k : ℤ, (set_workers_salary a v).workers_salary = k * 100 + a.worker_salary_offset)
    ∧ (∃ k : ℤ, (set_worker_benefits a v).worker_benefits = k * 10 + a.worker_benefits_offset)
    ∧ (∃ k : ℤ, (set_shirt_price a v).shirt_price = k * 2 + a.shirt_price_offset)
    ∧ (∃ k : ℤ, (set_material_order a v).material_order = k * 50 + a.material_order_offset)
    ∧ (∃ k : ℤ, (set_machines_maintenance a v).machines_maintenance
          = k * 100 + a.machines_maintenance_offset)
    ∧ (∃ k : ℤ, (set_advertising a v).advertising = k * 100 + a.advertising_offset)) := by
  have plain : ∀ lo hi st : ℚ, 0 < st → (∃ k : ℤ, lo = k * st) → lo ≤ hi →
      lo ≤ step_and_clamp v lo hi st a.use_steps
        ∧ step_and_clamp v lo hi st a.use_steps ≤ hi := by
    intro lo hi st h1 h2 h3
    exact step_and_clamp_mem v lo hi st a.use_steps h1 h2 h3
  have offs : ∀ lo hi st off : ℚ, 0 < st → (∃ k : ℤ, lo = k * st) → lo ≤ hi →
      lo + off ≤ step_and_clamp v lo hi st a.use_steps + off
        ∧ step_and_clamp v lo hi st a.use_steps + off ≤ hi + off := by
    intro lo hi st off h1 h2 h3
    have h := step_and_clamp_mem v lo hi st a.use_steps h1 h2 h3
    constructor <;> linarith [h.1, h.2]
  refine ⟨?_, ?_, ?_, ?_, ?_, ?_, ?_, ?_, ?_, ?_, ?_, ?_, ?_⟩
  · exact plain 0 20 1 (by norm_num) ⟨0, by norm_num⟩ (by norm_num)
  · exact plain 0 20 1 (by norm_num) ⟨0, by norm_num⟩ (by norm_num)
  · exact plain 0 10 1 (by norm_num) ⟨0, by norm_num⟩ (by norm_num)
  · exact plain 0 2 1 (by norm_num) ⟨0, by norm_num⟩ (by norm_num)
  · exact plain 0 20 1 (by norm_num) ⟨0, by norm_num⟩ (by norm_num)
  · exact plain 0 20 1 (by norm_num) ⟨0, by norm_num⟩ (by norm_num)
  · exact offs 0 5000 100 a.worker_salary_offset (by norm_num) ⟨0, by norm_num⟩ (by norm_num)
  · exact offs 0 500 10 a.worker_benefits_offset (by norm_num) ⟨0, by norm_num⟩ (by norm_num)
  · exact offs 10 100 2 a.shirt_price_offset (by norm_num) ⟨5, by norm_num⟩ (by norm_num)
  · exact offs 0 5000 50 a.material_order_offset (by norm_num) ⟨0, by norm_num⟩ (by norm_num)
  · exact offs 0 5000 100 a.machines_maintenance_offset (by norm_num) ⟨0, by norm_num⟩ (by norm_num)
  · exact offs 0 10000 100 a.advertising_offset (by norm_num) ⟨0, by norm_num⟩ (by norm_num)
  · intro hu
    refine ⟨?_, ?_, ?_, ?_, ?_, ?_⟩ <;>
      [skip; skip; skip; skip; skip; skip] <;>
      simp only [set_workers_salary, set_worker_benefits, set_shirt_price,
        set_material_order, set_machines_maintenance, set_advertising, hu] <;>
      [exact (step_and_clamp_mul v 0 5000 100).imp (fun k hk => by rw [hk]);
       exact (step_and_clamp_mul v 0 500 10).imp (fun k hk => by rw [hk]);
       exact (step_and_clamp_mul v 10 100 2).imp (fun k hk => by rw [hk]);
       exact (step_and_clamp_mul v 0 5000 50).imp (fun k hk => by rw [hk]);
       exact (step_and_clamp_mul v 0 5000 100).imp (fun k hk => by rw [hk]);
       exact (step_and_clamp_mul v 0 10000 100).imp (fun k hk => by rw [hk])]

/-- Claim C3 witness: the amended bounds and congruence at a concrete
setter call on the default ActionSet. -/
theorem C3_setter_ranges_witness :
    0 ≤ (set_workers50 default_cv 137).workers50
      ∧ ∃ k : ℤ, (set_workers_salary default_cv 137).workers_salary
          = k * 100 + default_cv.worker_salary_offset := by
  obtain ⟨h1, h2, h3, h4, h5, h6, h7, h8, h9, h10, h11, h12, h13⟩ :=
    C3_setter_ranges default_cv 137
  exact ⟨h1.1, (h13 (by rfl)).1⟩

/-- Claim C4 counterexample: on the default construction (salary 1080,
captured offset 80), set_workers_salary(1150) stores 1180, not the claimed
1080: the code floors the raw input 1150 to 1100 and re-adds the offset 80,
it does not floor the offset-shifted input. -/
theorem C4_counterexample :
    (set_workers_salary default_cv 1150).workers_salary = 1180
      ∧ ((1180 : ℚ) ≠ 1080) := by
  constructor
  · norm_num [default_cv, mk_cv, set_workers50, set_workers100, set_outlets,
      set_location_index, set_machines50, set_machines100, set_workers_salary,
      set_worker_benefits, set_shirt_price, set_material_order,
      set_machines_maintenance, set_advertising, step_and_clamp, clamp]
  · norm_num

/-- Claim C4 (amended): with the default construction (workers_salary=1080,
offset 80 relative to step 100), set_workers_salary(1180) stores exactly
1180, and set_workers_salary(1150) stores floor(1150/100)*100 + 80 = 1180. -/
theorem C4_salary_stepping :
    (set_workers_salary default_cv 1180).workers_salary = 1180
      ∧ (set_workers_salary default_cv 1150).workers_salary = 1180 := by
  constructor <;>
    norm_num [default_cv, mk_cv, set_workers50, set_workers100, set_outlets,
      set_location_index, set_machines50, set_machines100, set_workers_salary,
      set_worker_benefits, set_shirt_price, set_material_order,
      set_machines_maintenance, set_advertising, step_and_clamp, clamp]

/-- Claim C9 counterexample: set_location with the string "mall" raises
ValueError (the list lookup fails), refuting the part of the claim that any
string whatsoever is accepted without raising. -/
theorem C9_counterexample :
    (set_location default_cv (.inr (r"mall"))).isSome = false := by decide

/-- Claim C9 (amended): set_location never raises on integer input and the
stored location lies in [0, 2]; a string is accepted exactly when its
lowercase form is one of suburb, city, inner city (hence any capitalization
of the three names works, resolved to indices 0, 1 and 2), and any other
string raises ValueError. -/
theorem C9_set_location :
    (∀ (a : Controllable_Variables) (v : ℤ), ∃ a2,
        set_location a (.inl v) = some a2 ∧ 0 ≤ a2.location ∧ a2.location ≤ 2)
  ∧ (∀ (a : Controllable_Variables) (str : String), py_lower str = (r"suburb") →
        (set_location a (.inr str)).map Controllable_Variables.location = some 0)
  ∧ (∀ (a : Controllable_Variables) (str : String), py_lower str = (r"city") →
        (set_location a (.inr str)).map Controllable_Variables.location = some 1)
  ∧ (∀ (a : Controllable_Variables) (str : String), py_lower str = (r"inner city") →
        (set_location a (.inr str)).map Controllable_Variables.location = some 2)
  ∧ (∀ (a : Controllable_Variables) (str : String),
        (set_location a (.inr str)).isSome = true
          ↔ py_lower str ∈ ([r"suburb", r"city", r"inner city"] : List String)) := by
  refine ⟨?_, ?_, ?_, ?_, ?_⟩
  · intro a v
    refine ⟨set_location_index a (v : ℚ), rfl, ?_⟩
    have h := step_and_clamp_mem (v : ℚ) 0 2 1 a.use_steps (by norm_num)
      ⟨0, by norm_num⟩ (by norm_num)
    exact ⟨h.1, h.2⟩
  · intro a str h
    rw [set_location, py_string_index, h]
    cases hu : a.use_steps <;>
      simp [List.findIdx?, set_location_index, step_and_clamp, clamp, hu]
  · intro a str h
    rw [set_location, py_string_index, h]
    cases hu : a.use_steps <;>
      simp [List.findIdx?, set_location_index, step_and_clamp, clamp, hu]
  · intro a str h
    rw [set_location, py_string_index, h]
    cases hu : a.use_steps <;>
      simp [List.findIdx?, set_location_index, step_and_clamp, clamp, hu]
  · intro a str
    rw [set_location, py_string_index]
    by_cases h1 : py_lower str = (r"suburb")
    · rw [h1]; simp [List.findIdx?]
    · by_cases h2 : py_lower str = (r"city")
      · rw [h2]; simp [List.findIdx?]
      · by_cases h3 : py_lower str = (r"inner city")
        · rw [h3]; simp [List.findIdx?]
        · have g1 : ¬ ((r"suburb") = py_lower str) := fun hh => h1 hh.symm
          have g2 : ¬ ((r"city") = py_lower str) := fun hh => h2 hh.symm
          have g3 : ¬ ((r"inner city") = py_lower str) := fun hh => h3 hh.symm
          simp [List.findIdx?, g1, g2, g3, h1, h2, h3]

/-- Claim C9 witness: the integer branch and the lowercase resolution at
concrete inputs, derived from the amended theorem. -/
theorem C9_set_location_witness :
    (set_location default_cv (.inr (r"Inner City"))).map
        Controllable_Variables.location = some 2 := by
  have h := C9_set_location
  exact h.2.2.2.1 default_cv (r"Inner City") (by decide)

/-- Claim C8: calculate_step on a state whose turn has reached the horizon
(the noise-table length) returns none for every choice of actions; in the
model it is a total function, so it never raises. -/
theorem C8_finished_returns_none (actions last_actions : Controllable_Variables)
    (ts_state : Tailorshop_State)
    (h : (rnd_material_price.length : ℤ) ≤ ts_state.turn) :
    calculate_step actions last_actions ts_state = none := by
  rw [calculate_step, if_pos]
  unfold _is_finished
  exact Or.inl h

/-- Claim C8 witness: a concrete finished state (turn 14) with the default
actions yields none. -/
theorem C8_finished_returns_none_witness :
    calculate_step default_cv default_cv (mk_state 0 0 0 0 0 0 0 0 0 0 14) = none := by
  apply C8_finished_returns_none
  simp [mk_state, non_negative, rnd_material_price]

/-- round_and_update does not change the turn. -/
theorem round_and_update_turn (s : Tailorshop_State) :
    (round_and_update s).turn = s.turn := rfl

/-- calculate_step_raw always advances the turn by one. -/
theorem calculate_step_raw_turn (a l : Controllable_Variables) (s : Tailorshop_State) :
    (calculate_step_raw a l s).turn = s.turn + 1 := by
  simp [calculate_step_raw]

/-- The turn of the default engine state is 1. -/
theorem default_engine_turn : default_engine.current_state.turn = 1 := by
  simp [default_engine, default_state, mk_state, non_negative]

/-- Claim C5: do_next_step raises exactly when the stored turn has reached
the noise-table length; on success the committed state is the transition of
the stored current state with a copy of the stored last actions, and the
committed last actions are a copy of the given actions. -/
theorem C5_do_next_step (ts : Tailorshop) (a : Controllable_Variables) :
    (do_next_step ts a = .error () ↔ (rnd_material_price.length : ℤ) ≤ ts.current_state.turn)
  ∧ (∀ ts2, do_next_step ts a = .ok ts2 →
      calculate_step a (copy_cv ts.last_actions) ts.current_state = some ts2.current_state
      ∧ ts2.last_actions = copy_cv a) := by
  have hlen : (rnd_material_price.length : ℤ) = 14 := by norm_num [rnd_material_price]
  rw [hlen]
  by_cases hf : is_finished ts
  · have h14 : 14 ≤ ts.current_state.turn := (_is_finished_iff ts.current_state).1 hf
    rw [do_next_step, if_pos hf]
    refine ⟨⟨fun _ => h14, fun _ => rfl⟩, ?_⟩
    intro ts2 h
    exact absurd h (by simp)
  · have hf2 : ¬ _is_finished ts.current_state := hf
    have h14 : ¬ 14 ≤ ts.current_state.turn :=
      fun h => hf ((_is_finished_iff ts.current_state).2 h)
    have hcalc : calculate_step a (copy_cv ts.last_actions) ts.current_state
        = some (round_and_update (calculate_step_raw a (copy_cv ts.last_actions)
            ts.current_state)) := by
      rw [calculate_step, if_neg hf2]
    rw [do_next_step, if_neg hf, hcalc]
    refine ⟨⟨fun h => absurd h (by simp), fun h => absurd h h14⟩, ?_⟩
    intro ts2 h
    have h2 : Except.ok (ε := Unit)
        ({ current_state := round_and_update (calculate_step_raw a
              (copy_cv ts.last_actions) ts.current_state)
           last_actions := copy_cv a } : Tailorshop) = Except.ok ts2 := h
    have h3 := Except.ok.inj h2
    rw [← h3]
    exact ⟨rfl, rfl⟩

/-- Claim C5 witness: the default engine (turn 1) does not raise. -/
theorem C5_do_next_step_witness : ¬ (do_next_step default_engine default_cv = .error ()) := by
  intro h
  have h2 := (C5_do_next_step default_engine default_cv).1.mp h
  rw [default_engine_turn] at h2
  norm_num [rnd_material_price] at h2

/-- Claim C10: calling do_next_step on a finished engine raises and leaves
the stored current state and last actions exactly as they were (the raise in
the source precedes every assignment to the engine). -/
theorem C10_raise_is_atomic (ts : Tailorshop) (a : Controllable_Variables)
    (h : is_finished ts) : do_next_step_st ts a = (ts, true) := by
  rw [do_next_step_st, do_next_step, if_pos h]

/-- Claim C10 witness: a concrete finished engine (turn 14) is returned
unchanged together with the raised flag. -/
theorem C10_raise_is_atomic_witness :
    do_next_step_st
        { current_state := mk_state 0 0 0 0 0 0 0 0 0 0 14, last_actions := default_cv }
        default_cv
      = ({ current_state := mk_state 0 0 0 0 0 0 0 0 0 0 14,
           last_actions := default_cv }, true) := by
  apply C10_raise_is_atomic
  rw [is_finished, _is_finished_iff]
  simp [mk_state, non_negative]

/-- After k successful steps the turn has advanced by k; below the horizon
every step succeeds. -/
theorem run_steps_turn (acts : List Controllable_Variables) (ts : Tailorshop)
    (h : ts.current_state.turn + acts.length ≤ 14) :
    ∃ ts2, run_steps ts acts = some ts2
      ∧ ts2.current_state.turn = ts.current_state.turn + acts.length := by
  induction acts generalizing ts with
  | nil => exact ⟨ts, rfl, by simp⟩
  | cons a rest ih =>
    have hlen : (a :: rest).length = rest.length + 1 := rfl
    rw [hlen] at h
    have hnf : ¬ is_finished ts := by
      rw [is_finished, _is_finished_iff]
      omega
    have hnf2 : ¬ _is_finished ts.current_state := hnf
    have hstep : do_next_step ts a = .ok
        { current_state := round_and_update (calculate_step_raw a
            (copy_cv ts.last_actions) ts.current_state)
          last_actions := copy_cv a } := by
      rw [do_next_step, if_neg hnf, calculate_step, if_neg hnf2]
    have hturn : (round_and_update (calculate_step_raw a
        (copy_cv ts.last_actions) ts.current_state)).turn
        = ts.current_state.turn + 1 := by
      rw [round_and_update_turn, calculate_step_raw_turn]
    obtain ⟨ts2, hrun, hturn2⟩ := ih
      { current_state := round_and_update (calculate_step_raw a
          (copy_cv ts.last_actions) ts.current_state)
        last_actions := copy_cv a }
      (by simp only [hturn]; omega)
    refine ⟨ts2, ?_, ?_⟩
    · rw [run_steps, hstep]
      exact hrun
    · rw [hturn2]
      simp only [hturn, hlen]
      omega

/-- Claim C7: every successful transition advances the turn by exactly one;
the engine is finished exactly when the turn has reached 14, the shared
length of the four fixed noise tables; and from the default engine (turn 1)
any 13 steps succeed and leave the engine finished, while fewer than 13
steps leave it unfinished. -/
theorem C7_turn_and_horizon :
    (∀ (a l : Controllable_Variables) (s ns : Tailorshop_State),
        calculate_step a l s = some ns → ns.turn = s.turn + 1)
  ∧ (∀ ts : Tailorshop, is_finished ts ↔ 14 ≤ ts.current_state.turn)
  ∧ (∀ acts : List Controllable_Variables, acts.length = 13 →
        ∃ ts2, run_steps default_engine acts = some ts2 ∧ is_finished ts2)
  ∧ (∀ acts : List Controllable_Variables, acts.length < 13 →
        ∃ ts2, run_steps default_engine acts = some ts2 ∧ ¬ is_finished ts2) := by
  refine ⟨?_, ?_, ?_, ?_⟩
  · intro a l s ns h
    rw [calculate_step] at h
    split at h
    · exact absurd h (by simp)
    · have h2 : round_and_update (calculate_step_raw a l s) = ns := Option.some.inj h
      rw [← h2, round_and_update_turn, calculate_step_raw_turn]
  · intro ts
    exact _is_finished_iff ts.current_state
  · intro acts hlen
    obtain ⟨ts2, hrun, hturn⟩ := run_steps_turn acts default_engine
      (by rw [default_engine_turn, hlen]; norm_num)
    refine ⟨ts2, hrun, ?_⟩
    rw [is_finished, _is_finished_iff, hturn, default_engine_turn, hlen]
    norm_num
  · intro acts hlen
    obtain ⟨ts2, hrun, hturn⟩ := run_steps_turn acts default_engine
      (by rw [default_engine_turn]; omega)
    refine ⟨ts2, hrun, ?_⟩
    rw [is_finished, _is_finished_iff, hturn, default_engine_turn]
    omega

/-- Claim C7 witness: thirteen default-action steps from the default engine
succeed and leave the engine finished. -/
theorem C7_turn_and_horizon_witness :
    ∃ ts2, run_steps default_engine (List.replicate 13 default_cv) = some ts2
      ∧ is_finished ts2 := by
  exact C7_turn_and_horizon.2.2.1 (List.replicate 13 default_cv) (by simp)

/-- Claim C6: in every non-terminal transition the pre-rounding bank account
equals previous bank account + interest + sales revenue - investment cost -
regular expenses, with asymmetric interest on the previous balance, revenue
equal to the raw shirt sales times the shirt price, and expenses computed
from the previous state (its material_price, shirt_stock, material_stock);
the returned state is the rounding pass applied to exactly this raw state. -/
theorem C6_bank_account (a l : Controllable_Variables) (s : Tailorshop_State)
    (h : ¬ _is_finished s) :
    calculate_step a l s = some (round_and_update (calculate_step_raw a l s))
  ∧ (calculate_step_raw a l s).bank_account
      = s.bank_account
        + (if s.bank_account > 0 then s.bank_account * positive_interest
           else s.bank_account * negative_interest)
        + (calculate_step_raw a l s).shirt_sales * (a.shirt_price : ℝ)
        - _investments_machines_outlets a l s
        - _regular_expenses a s := by
  constructor
  · rw [calculate_step, if_neg h]
  · simp [calculate_step_raw]

/-- Claim C6 witness: the equality instantiated on the default state and
default actions. -/
theorem C6_bank_account_witness :
    calculate_step default_cv default_cv default_state
      = some (round_and_update (calculate_step_raw default_cv default_cv default_state)) := by
  refine (C6_bank_account default_cv default_cv default_state ?_).1
  rw [_is_finished_iff]
  simp [default_state, mk_state, non_negative]

/-- Previous state for the negative-fields counterexample: constructed through
the state constructor with empty shirt and material stock and machine
capacity 0, at turn 1. -/
noncomputable def s0_cex : Tailorshop_State := mk_state 165775 407 4 0 0.98 0 250691 767 0 0 1

/-- Actions for the negative-fields counterexample, built by the ActionSet
constructor with stepping enabled: salary 25 and benefits 0 give raw worker
satisfaction exactly -1, no advertising and no outlets, one machine-50 with
one worker. -/
def cvA_cex : Controllable_Variables := mk_cv 1 0 25 0 52 0 0 0 1 0 0 0 true

/-- Stored field values of cvA_cex. -/
theorem cvA_cex_fields :
    cvA_cex.workers50 = 1 ∧ cvA_cex.workers100 = 0 ∧ cvA_cex.workers_salary = 25
  ∧ cvA_cex.worker_benefits = 0 ∧ cvA_cex.shirt_price = 52 ∧ cvA_cex.outlets = 0
  ∧ cvA_cex.location = 0 ∧ cvA_cex.material_order = 0 ∧ cvA_cex.machines50 = 1
  ∧ cvA_cex.machines100 = 0 ∧ cvA_cex.machines_maintenance = 0 ∧ cvA_cex.advertising = 0 := by
  norm_num [cvA_cex, mk_cv, set_workers50, set_workers100, set_outlets,
    set_location_index, set_machines50, set_machines100, set_workers_salary,
    set_worker_benefits, set_shirt_price, set_material_order,
    set_machines_maintenance, set_advertising, step_and_clamp, clamp]

/-- Stored field values of s0_cex. -/
theorem s0_cex_fields :
    s0_cex.shirt_stock = 0 ∧ s0_cex.material_stock = 0 ∧ s0_cex.machine_capacity = 0
  ∧ s0_cex.customer_interest = 767 ∧ s0_cex.turn = 1 ∧ s0_cex.bank_account = 165775 := by
  norm_num [s0_cex, mk_state, non_negative, clamp]

/-- The raw successor of s0_cex under cvA_cex keeps the raw worker
satisfaction -1 (no flooring happens on assignment). -/
theorem cex1_ws : (calculate_step_raw cvA_cex cvA_cex s0_cex).worker_satisfaction = -1 := by
  obtain ⟨h1, h2, h3, h4, h5, h6, h7, h8, h9, h10, h11, h12⟩ := cvA_cex_fields
  simp only [calculate_step_raw, h3, h4]
  norm_num

/-- The raw successor of s0_cex under cvA_cex has negative shirt sales: the
production capacity is negative (capacity noise -1.6794734 at turn 1 with
machine capacity 0), so actual production and, with empty stock, the sales
minimum are negative. -/
theorem cex1_ss : (calculate_step_raw cvA_cex cvA_cex s0_cex).shirt_sales = -1.6794734 := by
  obtain ⟨h1, h2, h3, h4, h5, h6, h7, h8, h9, h10, h11, h12⟩ := cvA_cex_fields
  obtain ⟨g1, g2, g3, g4, g5, g6⟩ := s0_cex_fields
  have hsqrt : Real.sqrt |0.5 + (((25:ℚ):ℝ) - 850) / 550 + (((0:ℚ):ℝ) / 800)| = 1 := by
    have he : (0.5 + (((25:ℚ):ℝ) - 850) / 550 + (((0:ℚ):ℝ) / 800)) = -1 := by
      push_cast
      norm_num
    rw [he, abs_neg, abs_one, Real.sqrt_one]
  have ht : (from_ts_state s0_cex).turn = 1 := by
    simp [from_ts_state, s0_cex, mk_state, non_negative]
  have hdem : 0 < _shirts_demand cvA_cex s0_cex := by
    simp only [_shirts_demand, g4]
    have hpow : (0:ℝ) < (2.7181:ℝ)
        ^ (((-1 * ((cvA_cex.shirt_price : ℝ) ^ (2:ℕ))) / 4250) : ℝ) :=
      Real.rpow_pos_of_pos (by norm_num) _
    positivity
  simp only [calculate_step_raw, _production_capacity_50, _production_capacity_100,
    h1, h2, h3, h4, h8, h9, h10, h11, g1, g2, g3, ht]
  rw [hsqrt]
  have hp50 : pyIndex rnd_machines_50 (1 - 1) = -1.6794734 := by
    norm_num [pyIndex, rnd_machines_50]
  have hp100 : pyIndex rnd_machines_100 (1 - 1) = -0.8060082 := by
    norm_num [pyIndex, rnd_machines_100]
  rw [hp50, hp100]
  push_cast
  norm_num [min_self]
  linarith [hdem]

/-- The raw successor of s0_cex under cvA_cex has negative customer interest:
no advertising and no outlets leave only the noise term -23.04985. -/
theorem cex1_ci : (calculate_step_raw cvA_cex cvA_cex s0_cex).customer_interest = -23.04985 := by
  obtain ⟨h1, h2, h3, h4, h5, h6, h7, h8, h9, h10, h11, h12⟩ := cvA_cex_fields
  obtain ⟨g1, g2, g3, g4, g5, g6⟩ := s0_cex_fields
  simp only [calculate_step_raw, customer_interest_calc, h6, h7, h12, g5]
  have hpci : pyIndex rnd_customer_interest (1 - 1) = -23.04985 := by
    norm_num [pyIndex, rnd_customer_interest]
  rw [hpci]
  push_cast
  norm_num [max_advertising_effect]

/-- Actions for the machine-capacity counterexample, built by the ActionSet
constructor with stepping enabled: one machine-50 and maintenance 5000. -/
def cvB_cex : Controllable_Variables := mk_cv 8 0 1080 50 52 1 1 0 1 0 5000 2800 true

/-- Stored field values of cvB_cex that feed the capacity update. -/
theorem cvB_cex_fields :
    cvB_cex.machines50 = 1 ∧ cvB_cex.machines100 = 0
  ∧ cvB_cex.machines_maintenance = 5000 := by
  norm_num [cvB_cex, mk_cv, set_workers50, set_workers100, set_outlets,
    set_location_index, set_machines50, set_machines100, set_workers_salary,
    set_worker_benefits, set_shirt_price, set_material_order,
    set_machines_maintenance, set_advertising, step_and_clamp, clamp]

/-- The default state starts with machine capacity 47. -/
theorem default_state_cap : default_state.machine_capacity = 47 := by
  norm_num [default_state, mk_state, clamp]

/-- The raw successor of the default state under cvB_cex rounds its machine
capacity to 127: the uncapped update 0.9 * 47 + (5000 / (1 + 1e-8)) * 0.017
is about 127.3 and nothing clamps it before the state is returned. -/
theorem cex2_cap :
    pyRound ((calculate_step_raw cvB_cex cvB_cex default_state).machine_capacity) = 127 := by
  obtain ⟨h1, h2, h3⟩ := cvB_cex_fields
  apply pyRound_eq
  · simp only [calculate_step_raw, h1, h2, h3, default_state_cap]
    push_cast
    norm_num
  · simp only [calculate_step_raw, h1, h2, h3, default_state_cap]
    push_cast
    norm_num

/-- Claim C1 counterexample: one transition from a constructor-built state
(turn 1, empty stocks, machine capacity 0) under constructor-built actions
(salary 25, benefits 0, no advertising, no outlets) returns a state whose
worker_satisfaction is -1, whose shirt_sales is -2 and whose
customer_interest is -23, all negative: the raw values are assigned directly
and are not floored to 0 in the returned state. -/
theorem C1_counterexample :
    (calculate_step cvA_cex cvA_cex s0_cex).map Tailorshop_State.worker_satisfaction = some (-1)
  ∧ (calculate_step cvA_cex cvA_cex s0_cex).map Tailorshop_State.shirt_sales = some (-2)
  ∧ (calculate_step cvA_cex cvA_cex s0_cex).map Tailorshop_State.customer_interest = some (-23)
  ∧ ¬ ((0:ℝ) ≤ -1) ∧ ¬ ((0:ℝ) ≤ -2) ∧ ¬ ((0:ℝ) ≤ -23) := by
  have hnf : ¬ _is_finished s0_cex := by
    rw [_is_finished_iff]
    norm_num [s0_cex, mk_state, non_negative]
  rw [calculate_step, if_neg hnf]
  refine ⟨?_, ?_, ?_, by norm_num, by norm_num, by norm_num⟩
  · simp [round_and_update, cex1_ws]
  · simp only [Option.map_some, round_and_update, cex1_ss]
    rw [show pyRound (-1.6794734 : ℝ) = -2 from pyRound_eq _ _ (by norm_num) (by norm_num)]
    norm_num
  · simp only [Option.map_some, round_and_update, cex1_ci]
    rw [show pyRound (-23.04985 : ℝ) = -23 from pyRound_eq _ _ (by norm_num) (by norm_num)]
    norm_num

/-- Claim C1 (amended): every state returned by the transition has
shirt_stock, material_price and material_stock at least 0, but shirt_sales,
customer_interest and worker_satisfaction are stored raw (plain attribute
assignment bypasses the constructor clamps) and can be negative; in
particular the returned worker_satisfaction is exactly the raw value
0.5 + (workers_salary - 850)/550 + worker_benefits/800, with no flooring. -/
theorem C1_nonnegative_fields (a l : Controllable_Variables) (s ns : Tailorshop_State)
    (h : calculate_step a l s = some ns) :
    0 ≤ ns.shirt_stock ∧ 0 ≤ ns.material_price ∧ 0 ≤ ns.material_stock
  ∧ ns.worker_satisfaction
      = 0.5 + (((a.workers_salary : ℝ) - 850) / 550) + ((a.worker_benefits : ℝ) / 800) := by
  have key : ∀ A B : ℝ, 0 ≤ A - min A B := fun A B => sub_nonneg.2 (min_le_left A B)
  rw [calculate_step] at h
  split at h
  · exact absurd h (by simp)
  · have h2 : round_and_update (calculate_step_raw a l s) = ns := Option.some.inj h
    rw [← h2]
    refine ⟨?_, ?_, ?_, ?_⟩
    · simp only [round_and_update]
      have h3 : 0 ≤ (calculate_step_raw a l s).shirt_stock := by
        simp only [calculate_step_raw]
        apply key
      exact_mod_cast pyRound_nonneg _ h3
    · simp only [round_and_update]
      have h3 : 0 ≤ (calculate_step_raw a l s).material_price := by
        simp only [calculate_step_raw]
        exact_mod_cast pyRound_nonneg _
          (pyIndex_nonneg _ _ rnd_material_price_nonneg)
      exact_mod_cast pyRound_nonneg _ h3
    · simp only [round_and_update]
      have h3 : 0 ≤ (calculate_step_raw a l s).material_stock := by
        simp only [calculate_step_raw]
        apply key
      exact_mod_cast pyRound_nonneg _ h3
    · simp only [round_and_update, calculate_step_raw]

/-- Claim C1 witness: the amended non-negativity at the default state and
default actions. -/
theorem C1_nonnegative_fields_witness :
    0 ≤ (round_and_update (calculate_step_raw default_cv default_cv default_state)).shirt_stock := by
  have hnf : ¬ _is_finished default_state := by
    rw [_is_finished_iff]
    norm_num [default_state, mk_state, non_negative]
  exact (C1_nonnegative_fields default_cv default_cv default_state _
    (by rw [calculate_step, if_neg hnf])).1

/-- Claim C2 counterexample: one transition from the default state (machine
capacity 47) under constructor-built actions with one machine-50 and
maintenance 5000 returns machine_capacity 127 > 50: the uncapped step-2
value is stored and no clamp runs before the state is returned to the
caller. -/
theorem C2_counterexample :
    (calculate_step cvB_cex cvB_cex default_state).map Tailorshop_State.machine_capacity
      = some 127
  ∧ ¬ ((127 : ℝ) ≤ 50) := by
  have hnf : ¬ _is_finished default_state := by
    rw [_is_finished_iff]
    norm_num [default_state, mk_state, non_negative]
  rw [calculate_step, if_neg hnf]
  refine ⟨?_, by norm_num⟩
  simp [round_and_update, cex2_cap]

/-- Claim C2 (amended): for a previous state with non-negative material
stock and machine capacity and actions with non-negative material order,
maintenance and machine counts, the returned production_idle lies in
[0, 100] (indeed in [0, 1]) and the returned machine_capacity is at least 0;
the upper clamp to 50 does not hold, because the transition stores the
uncapped step-2 value and the constructor clamp only runs when a state is
re-constructed, which does not happen on the return path. -/
theorem C2_capacity_and_idle (a l : Controllable_Variables) (s ns : Tailorshop_State)
    (hmo : 0 ≤ a.material_order) (hms : 0 ≤ s.material_stock)
    (hcap : 0 ≤ s.machine_capacity) (hmm : 0 ≤ a.machines_maintenance)
    (hm50 : 0 ≤ a.machines50) (hm100 : 0 ≤ a.machines100)
    (h : calculate_step a l s = some ns) :
    0 ≤ ns.machine_capacity ∧ 0 ≤ ns.production_idle ∧ ns.production_idle ≤ 100 := by
  rw [calculate_step] at h
  split at h
  · exact absurd h (by simp)
  · have h2 := Option.some.inj h
    rw [← h2]
    have hmb : (0:ℝ) ≤ s.material_stock + (a.material_order : ℝ) :=
      add_nonneg hms (by exact_mod_cast hmo)
    have gen : ∀ pc mb : ℝ, 0 ≤ mb →
        0 ≤ (if pc ≠ 0 then (pc - min mb pc) / pc else 0)
        ∧ (if pc ≠ 0 then (pc - min mb pc) / pc else 0) ≤ 100 := by
      intro pc mb hmb2
      by_cases hpc : pc = 0
      · simp [hpc]
      · rw [if_pos hpc]
        rcases lt_or_gt_of_ne hpc with hneg | hpos
        · rw [min_eq_right (hneg.le.trans hmb2)]
          simp
        · have hnum1 : 0 ≤ pc - min mb pc := sub_nonneg.2 (min_le_right mb pc)
          have hnum2 : pc - min mb pc ≤ pc := by
            have := le_min hmb2 hpos.le
            linarith
          constructor
          · exact div_nonneg hnum1 hpos.le
          · have := (div_le_one hpos).2 hnum2
            linarith
    refine ⟨?_, ?_, ?_⟩
    · simp only [round_and_update]
      have hraw : 0 ≤ (calculate_step_raw a l s).machine_capacity := by
        simp only [calculate_step_raw]
        have hd : (0:ℝ) < ((a.machines50 + a.machines100 : ℚ) : ℝ) + 0.00000001 := by
          have hn : (0:ℝ) ≤ ((a.machines50 + a.machines100 : ℚ) : ℝ) := by
            exact_mod_cast add_nonneg hm50 hm100
          have he : (0:ℝ) < 0.00000001 := by norm_num
          linarith
        apply add_nonneg
        · exact mul_nonneg (by norm_num) hcap
        · exact mul_nonneg (div_nonneg (by exact_mod_cast hmm) hd.le) (by norm_num)
      exact_mod_cast pyRound_nonneg _ hraw
    · simp only [round_and_update, calculate_step_raw]
      exact (gen _ _ hmb).1
    · simp only [round_and_update, calculate_step_raw]
      exact (gen _ _ hmb).2

/-- Claim C2 witness: the amended idle bound at the default state and
default actions. -/
theorem C2_capacity_and_idle_witness :
    0 ≤ (round_and_update (calculate_step_raw default_cv default_cv default_state)).production_idle := by
  have hnf : ¬ _is_finished default_state := by
    rw [_is_finished_iff]
    norm_num [default_state, mk_state, non_negative]
  have hlist : 0 ≤ default_cv.material_order ∧ 0 ≤ default_cv.machines_maintenance
      ∧ 0 ≤ default_cv.machines50 ∧ 0 ≤ default_cv.machines100 := by
    norm_num [default_cv, mk_cv, set_workers50, set_workers100, set_outlets,
      set_location_index, set_machines50, set_machines100, set_workers_salary,
      set_worker_benefits, set_shirt_price, set_material_order,
      set_machines_maintenance, set_advertising, step_and_clamp, clamp]
  have hst : 0 ≤ default_state.material_stock ∧ 0 ≤ default_state.machine_capacity := by
    norm_num [default_state, mk_state, non_negative, clamp]
  exact (C2_capacity_and_idle default_cv default_cv default_state _
    hlist.1 hst.1 hst.2 hlist.2.1 hlist.2.2.1 hlist.2.2.2
    (by rw [calculate_step, if_neg hnf])).2.1
